import Mathlib

/-!
Verification of the voice-interaction core of the `bsma` repository.

The embedding follows the two source files the claims point at:
* `apps/web/src/hooks/useVoice.ts` — the voice session hook: connection
  state machine, recognition handlers, speech output, stop operations.
* `apps/web/src/components/voice/VoiceInterface.tsx` — pure audio
  utilities: PCM conversion, resampling, WAV header framing, buffer
  concatenation.

Machine floats are embedded as `ℚ`; the algorithms are translated
statement by statement from the TypeScript source.
-/

namespace UseVoice

/-- The `VoiceConnectionState` union from `useVoice.ts`. -/
inductive VoiceConnectionState where
  | idle
  | connecting
  | active
  | error
  | reconnecting
deriving DecidableEq, Repr

/-- The session state owned by the hook: the React state cells together
with the recognition bookkeeping the handlers act on.
`recognitionStartCount` counts calls to `recognition.start()`;
`recognitionAttached` models `recognitionRef.current !== null`. -/
structure VoiceState where
  connectionState : VoiceConnectionState
  isListening : Bool
  isSpeaking : Bool
  audioLevel : ℚ
  errMsg : Option String
  recognitionStartCount : ℕ
  recognitionAttached : Bool
deriving DecidableEq, Repr

/-- The state before any operation ran: all React `useState` initial values. -/
def initialVoiceState : VoiceState :=
  { connectionState := .idle
    isListening := false
    isSpeaking := false
    audioLevel := 0
    errMsg := none
    recognitionStartCount := 0
    recognitionAttached := true }

/-- The `startListening` success path: `setError(null)`, `setConnectionState('connecting')`,
device and capability acquisition succeed, `recognition.start()` is called and
`recognitionRef.current` is set.  The state stays `connecting` until `onstart` fires. -/
def startListeningOk (s : VoiceState) : VoiceState :=
  { s with errMsg := none
           connectionState := .connecting
           recognitionStartCount := s.recognitionStartCount + 1
           recognitionAttached := true }

/-- The `startListening` failure path (`catch` block): the error message is recorded,
the state is forced to `error` and `isListening` to `false`. -/
def startListeningFail (msg : String) (s : VoiceState) : VoiceState :=
  { s with errMsg := some msg
           connectionState := .error
           isListening := false }

/-- Handler `recognition.onstart`: `setIsListening(true)`, `setConnectionState('active')`
(the level-monitor tick it also launches is modelled as the separate
`updateAudioLevel` operation). -/
def onstart (s : VoiceState) : VoiceState :=
  { s with isListening := true, connectionState := .active }

/-- Handler `recognition.onerror`: `no-speech` and `aborted` are swallowed; any other
code records `Speech recognition error: <code>` and forces the state to `error`. -/
def onerror (code : String) (s : VoiceState) : VoiceState :=
  if code ≠ "no-speech" ∧ code ≠ "aborted" then
    { s with errMsg := some ("Speech recognition error: " ++ code)
             connectionState := .error }
  else s

/-- Handler `recognition.onend`: reads the live refs (`isListeningRef`,
`connectionStateRef`) at callback-fire time and restarts the capability only
when still listening in the `active` state.  A restart throwing
`already started` is swallowed, so the call is counted either way. -/
def onend (s : VoiceState) : VoiceState :=
  if s.isListening ∧ s.connectionState = .active then
    { s with recognitionStartCount := s.recognitionStartCount + 1 }
  else s

/-- Operation `stopListening`: drops the recognition, stream, audio-context and
animation-frame handles, then `setIsListening(false)`,
`setConnectionState('idle')`, `setAudioLevel(0)`. -/
def stopListening (s : VoiceState) : VoiceState :=
  { s with recognitionAttached := false
           isListening := false
           connectionState := .idle
           audioLevel := 0 }

/-- One `updateAudioLevel` tick.  `analyserPresent` models
`analyserRef.current !== null` and `avg` the byte-frequency average the tick
reads; when the analyser is gone or listening stopped the tick resets the
level to `0`, otherwise it publishes `min (avg / 128) 1`. -/
def updateAudioLevel (analyserPresent : Bool) (avg : ℚ) (s : VoiceState) : VoiceState :=
  if ¬analyserPresent ∨ ¬s.isListening then
    { s with audioLevel := 0 }
  else
    { s with audioLevel := min (avg / 128) 1 }

/-- The operations of claim C3: start (both outcomes), stop, the three
recognizer handlers, and the level-monitor tick. -/
inductive Event where
  | startOk
  | startFail (msg : String)
  | startEv
  | errorEv (code : String)
  | endEv
  | stopEv
  | tickEv (analyserPresent : Bool) (avg : ℚ)

def applyEvent : Event → VoiceState → VoiceState
  | .startOk => startListeningOk
  | .startFail msg => startListeningFail msg
  | .startEv => onstart
  | .errorEv code => onerror code
  | .endEv => onend
  | .stopEv => stopListening
  | .tickEv p avg => updateAudioLevel p avg

/-- Session states reachable from the initial state by the hook's operations. -/
inductive Reachable : VoiceState → Prop where
  | init : Reachable initialVoiceState
  | step (e : Event) {s : VoiceState} : Reachable s → Reachable (applyEvent e s)

/-- Concrete run: successful start, `onstart`, one level-monitor tick with
byte-frequency average 64, then a fatal `network` recognition error. -/
def errorTraceMid : VoiceState :=
  onerror "network" (updateAudioLevel true 64 (onstart (startListeningOk initialVoiceState)))

/-- The run `errorTraceMid` continued by a failed `startListening` call. -/
def errorTraceEnd : VoiceState :=
  startListeningFail "Failed to start listening" errorTraceMid

/-! ### Speech output (`speak` / `stopSpeaking`) -/

/-- The speaking side of the session: `backendPlaying` models a started
`AudioBufferSourceNode` of the backend path, `localQueueActive` an utterance
queued on `speechSynthesis`. -/
structure SpeakState where
  isSpeaking : Bool
  backendPlaying : Bool
  localQueueActive : Bool
deriving DecidableEq, Repr

/-- How the backend branch of `speak` can end: the `/tts` fetch throws, the
response is non-2xx (`synthesizeSpeech` throws on `!response.ok`),
`decodeAudioData` rejects, or playback starts. -/
inductive BackendOutcome where
  | networkError
  | httpFail (status : ℕ)
  | decodeError
  | success
deriving DecidableEq, Repr

/-- What a `speak` call did besides its state change: how many times the
local fallback was invoked and with which utterance parameters, and which of
the two paths has registered the callback that will later deliver the
terminal `setIsSpeaking(false)`. -/
structure SpeakEffects where
  fallbackInvocations : ℕ
  fallbackRate : ℚ
  fallbackPitch : ℚ
  backendTerminal : Bool
  fallbackTerminal : Bool
deriving DecidableEq, Repr

/-- Operation `speak(text, lang)` from `useVoice.ts`: `setIsSpeaking(true)`, then try
backend synthesis; `backendSucceeded` is set only after `source.start(0)`,
and the browser-TTS fallback block runs only when `backendSucceeded` is
false, with `rate = 0.9`, `pitch = 1`.  The backend path's `onended` and the
fallback utterance's `onend`/`onerror` are the handlers that later set
`isSpeaking` back to false. -/
def speak (o : BackendOutcome) (s : SpeakState) : SpeakState × SpeakEffects :=
  let s1 := { s with isSpeaking := true }
  let backendSucceeded : Bool := decide (o = .success)
  if backendSucceeded then
    ({ s1 with backendPlaying := true },
     { fallbackInvocations := 0
       fallbackRate := 0
       fallbackPitch := 0
       backendTerminal := true
       fallbackTerminal := false })
  else
    ({ s1 with localQueueActive := true },
     { fallbackInvocations := 1
       fallbackRate := 9 / 10
       fallbackPitch := 1
       backendTerminal := false
       fallbackTerminal := true })

/-- Operation `stopSpeaking` from `useVoice.ts`: `speechSynthesis.cancel()` empties the
local-synthesis queue, then `setIsSpeaking(false)`.  No handle to the backend
`AudioBufferSourceNode` is touched. -/
def stopSpeaking (s : SpeakState) : SpeakState :=
  { s with localQueueActive := false, isSpeaking := false }

end UseVoice

namespace AudioCodec

/-! ### PCM conversion (`VoiceInterface.tsx`, `float32ToInt16` / `int16ToFloat32`) -/

/-- Truncation toward zero, the conversion JavaScript applies when a number
is stored into an `Int16Array` (all values produced here fit in 16 bits, so
the wrap-around modulo never engages). -/
def truncTowardZero (q : ℚ) : ℤ :=
  if q < 0 then -⌊-q⌋ else ⌊q⌋

/-- Per-sample body of `float32ToInt16`: clamp to `[-1, 1]`, then scale a
negative value by `0x8000 = 32768` and a non-negative one by
`0x7fff = 32767`. -/
def float32ToInt16Sample (x : ℚ) : ℤ :=
  let s := max (-1) (min 1 x)
  truncTowardZero (if s < 0 then s * 32768 else s * 32767)

/-- Operation `float32ToInt16` applied elementwise over the input array. -/
def float32ToInt16 (xs : List ℚ) : List ℤ :=
  xs.map float32ToInt16Sample

/-- Per-sample body of `int16ToFloat32`: a negative sample is divided by
`32768`, a non-negative one by `32767`. -/
def int16ToFloat32Sample (i : ℤ) : ℚ :=
  if i < 0 then (i : ℚ) / 32768 else (i : ℚ) / 32767

/-- Operation `int16ToFloat32` applied elementwise over the input array. -/
def int16ToFloat32 (xs : List ℤ) : List ℚ :=
  xs.map int16ToFloat32Sample

/-! ### Resampling (`VoiceInterface.tsx`, `resampleAudio`) -/

/-- Operation `resampleAudio`: identity when the rates are equal, otherwise
linear interpolation at source position `i / ratio` with
`ratio = outputSampleRate / inputSampleRate` and output length
`floor(input.length * ratio)`; the trailing index whose right neighbour
would fall outside the input reads `input[srcIndex] || 0`. -/
def resampleAudio (input : List ℚ) (inputSampleRate outputSampleRate : ℚ) : List ℚ :=
  if inputSampleRate = outputSampleRate then input
  else
    let ratio := outputSampleRate / inputSampleRate
    let outputLength := (⌊(input.length : ℚ) * ratio⌋).toNat
    (List.range outputLength).map (fun (i : ℕ) =>
      let srcPosition := (i : ℚ) / ratio
      let srcIndex := (⌊srcPosition⌋).toNat
      let fraction := srcPosition - (srcIndex : ℚ)
      if srcIndex + 1 < input.length then
        input.getD srcIndex 0 * (1 - fraction) + input.getD (srcIndex + 1) 0 * fraction
      else
        input.getD srcIndex 0)

/-! ### WAV header (`VoiceInterface.tsx`, `createWavHeader` / `writeString`) -/

/-- Little-endian bytes of a `DataView.setUint32` write: the value is taken
modulo `2 ^ 32` and laid out least-significant byte first. -/
def uint32Bytes (v : ℕ) : List ℕ :=
  [v % 256, v / 256 % 256, v / 65536 % 256, v / 16777216 % 256]

/-- Little-endian bytes of a `DataView.setUint16` write. -/
def uint16Bytes (v : ℕ) : List ℕ :=
  [v % 256, v / 256 % 256]

/-- Write a byte run into a fixed-size buffer; like a `DataView` write it
fails when the run would exceed the buffer. -/
def writeBytes (buf : List ℕ) (off : ℕ) (bytes : List ℕ) : Option (List ℕ) :=
  if off + bytes.length ≤ buf.length then
    some (buf.take off ++ bytes ++ buf.drop (off + bytes.length))
  else none

/-- Helper `writeString` from `VoiceInterface.tsx`: validates that
`offset + str.length` stays inside the buffer, then writes the character
codes byte by byte. -/
def writeString (buf : List ℕ) (off : ℕ) (str : String) : Option (List ℕ) :=
  if off + str.length ≤ buf.length then
    writeBytes buf off (str.toList.map Char.toNat)
  else none

/-- Write of `DataView.setUint32` with the little-endian flag set. -/
def setUint32 (buf : List ℕ) (off v : ℕ) : Option (List ℕ) :=
  writeBytes buf off (uint32Bytes v)

/-- Write of `DataView.setUint16` with the little-endian flag set. -/
def setUint16 (buf : List ℕ) (off v : ℕ) : Option (List ℕ) :=
  writeBytes buf off (uint16Bytes v)

/-- Operation `createWavHeader`: the canonical 44-byte RIFF/WAVE/fmt/data
header, built by the exact write sequence of the source. -/
def createWavHeader (dataLength sampleRate : ℕ) (numChannels : ℕ := 1)
    (bitsPerSample : ℕ := 16) : Option (List ℕ) := do
  let byteRate := sampleRate * numChannels * bitsPerSample / 8
  let blockAlign := numChannels * bitsPerSample / 8
  let header := List.replicate 44 0
  let header ← writeString header 0 "RIFF"
  let header ← setUint32 header 4 (36 + dataLength)
  let header ← writeString header 8 "WAVE"
  let header ← writeString header 12 "fmt "
  let header ← setUint32 header 16 16
  let header ← setUint16 header 20 1
  let header ← setUint16 header 22 numChannels
  let header ← setUint32 header 24 sampleRate
  let header ← setUint32 header 28 byteRate
  let header ← setUint16 header 32 blockAlign
  let header ← setUint16 header 34 bitsPerSample
  let header ← writeString header 36 "data"
  let header ← setUint32 header 40 dataLength
  return header

/-- Little-endian 16-bit read used to decode a produced header. -/
def readUint16 (l : List ℕ) (off : ℕ) : ℕ :=
  l.getD off 0 + 256 * l.getD (off + 1) 0

/-- Little-endian 32-bit read used to decode a produced header. -/
def readUint32 (l : List ℕ) (off : ℕ) : ℕ :=
  l.getD off 0 + 256 * l.getD (off + 1) 0 + 65536 * l.getD (off + 2) 0 +
    16777216 * l.getD (off + 3) 0

/-! ### Buffer concatenation (`VoiceInterface.tsx`, `concatenateAudioBuffers`) -/

/-- Shape of a Web Audio `AudioBuffer` as the utilities use it: channel
count, frame count (`length`), sample rate and per-channel data. -/
structure AudioBuffer where
  numberOfChannels : ℕ
  length : ℕ
  sampleRate : ℚ
  channelData : List (List ℚ)
deriving DecidableEq, Repr

/-- Accessor `getChannelData(channel)`: per the Web Audio API it throws
`IndexSizeError` when the channel index is at or beyond the buffer's own
`numberOfChannels`. -/
def AudioBuffer.getChannelData (b : AudioBuffer) (channel : ℕ) :
    Except String (List ℚ) :=
  if channel < b.numberOfChannels then .ok (b.channelData.getD channel [])
  else .error "IndexSizeError"

/-- Effect of `TypedArray.set(src, offset)` on a destination buffer. -/
def setAt (dest src : List ℚ) (off : ℕ) : List ℚ :=
  dest.take off ++ src ++ dest.drop (off + src.length)

/-- Inner loop of `concatenateAudioBuffers` for one channel: walk the
buffers, writing each buffer's channel data at the accumulated offset; a
`getChannelData` throw aborts the walk. -/
def fillChannel (channel : ℕ) : List AudioBuffer → List ℚ × ℕ → Except String (List ℚ × ℕ)
  | [], acc => .ok acc
  | b :: bs, acc =>
    match b.getChannelData channel with
    | .error e => .error e
    | .ok src => fillChannel channel bs (setAt acc.1 src acc.2, acc.2 + b.length)

/-- Outer loop of `concatenateAudioBuffers`: run `fillChannel` for each
channel index over a fresh zero destination, propagating a throw. -/
def fillChannels (buffers : List AudioBuffer) (totalLength : ℕ) :
    List ℕ → Except String (List (List ℚ))
  | [] => .ok []
  | channel :: channels =>
    match fillChannel channel buffers (List.replicate totalLength 0, 0) with
    | .error e => .error e
    | .ok out =>
      match fillChannels buffers totalLength channels with
      | .error e => .error e
      | .ok rest => .ok (out.1 :: rest)

/-- Operation `concatenateAudioBuffers`: `null` on an empty list, the input
buffer itself on a singleton, otherwise a fresh buffer of the summed length
carrying the first buffer's channel count and sample rate, filled channel by
channel at accumulated offsets.  The channel loop runs up to the first
buffer's channel count, so a `getChannelData` throw (modelled as
`Except.error`) propagates when a later buffer has fewer channels than the
first. -/
def concatenateAudioBuffers : List AudioBuffer → Except String (Option AudioBuffer)
  | [] => .ok none
  | [b] => .ok (some b)
  | buffers@(b0 :: _ :: _) =>
    let totalLength := buffers.foldl (fun acc b => acc + b.length) 0
    let numChannels := b0.numberOfChannels
    let sampleRate := b0.sampleRate
    match fillChannels buffers totalLength (List.range numChannels) with
    | .error e => .error e
    | .ok channelData =>
      .ok (some { numberOfChannels := numChannels
                  length := totalLength
                  sampleRate := sampleRate
                  channelData := channelData })

end AudioCodec

open UseVoice AudioCodec

/-! ## Claims about the session state machine -/

/-- C1: when `onEnd` fires, the driver restarts the recognition capability
if and only if the live session state is `active` with listening not
stopped: in that case the recognition call count increments and no session
field changes; otherwise nothing happens, and in particular a pending
`onEnd` arriving after `stop()` performs no restart and leaves the state
`idle`. -/
theorem onend_restart_policy (s : VoiceState) :
    (s.isListening = true ∧ s.connectionState = .active →
      onend s = { s with recognitionStartCount := s.recognitionStartCount + 1 }) ∧
    (¬(s.isListening = true ∧ s.connectionState = .active) → onend s = s) ∧
    onend (stopListening s) = stopListening s ∧
    (stopListening s).connectionState = .idle := by
  refine ⟨fun h => ?_, fun h => ?_, ?_, rfl⟩
  · simp [onend, h.1, h.2]
  · simp only [onend]
    rw [if_neg]
    simpa using h
  · simp [onend, stopListening]

/-- Witness for C1 at the concrete post-`onstart` session state. -/
theorem onend_restart_policy_witness :
    onend (onstart (startListeningOk initialVoiceState)) =
      { onstart (startListeningOk initialVoiceState) with recognitionStartCount := 2 } ∧
    onend (stopListening (onstart (startListeningOk initialVoiceState))) =
      stopListening (onstart (startListeningOk initialVoiceState)) := by
  constructor
  · exact (onend_restart_policy (onstart (startListeningOk initialVoiceState))).1 ⟨rfl, rfl⟩
  · exact (onend_restart_policy (onstart (startListeningOk initialVoiceState))).2.2.1

/-- C5: a recognition error with code `no-speech` or `aborted` is swallowed
and the session state is completely unchanged; any other code records the
error message and forces the connection state to `error`. -/
theorem onerror_classification (code : String) (s : VoiceState) :
    (code = "no-speech" ∨ code = "aborted" → onerror code s = s) ∧
    (code ≠ "no-speech" → code ≠ "aborted" →
      (onerror code s).errMsg = some ("Speech recognition error: " ++ code) ∧
      (onerror code s).connectionState = .error) := by
  constructor
  · rintro (rfl | rfl) <;> simp [onerror]
  · intro h1 h2
    simp [onerror, h1, h2]

/-- Witness for C5: the benign code `no-speech` and the fatal code
`network` at the initial state. -/
theorem onerror_classification_witness :
    onerror "no-speech" initialVoiceState = initialVoiceState ∧
    (onerror "network" initialVoiceState).errMsg = some "Speech recognition error: network" ∧
    (onerror "network" initialVoiceState).connectionState = .error := by
  refine ⟨(onerror_classification "no-speech" initialVoiceState).1 (Or.inl rfl), ?_, ?_⟩
  · exact ((onerror_classification "network" initialVoiceState).2 (by decide) (by decide)).1
  · exact ((onerror_classification "network" initialVoiceState).2 (by decide) (by decide)).2

/-- C9: `stop()` is valid from every session state and idempotent: it
always yields `audioLevel = 0`, `isListening = false` and connection state
`idle`, and applying it a second time changes nothing. -/
theorem stopListening_idempotent (s : VoiceState) :
    (stopListening s).audioLevel = 0 ∧
    (stopListening s).isListening = false ∧
    (stopListening s).connectionState = .idle ∧
    stopListening (stopListening s) = stopListening s :=
  ⟨rfl, rfl, rfl, rfl⟩

/-- C3 (counterexample): the claimed invariant fails on a reachable run.
After a successful start, `onstart`, a level tick and a fatal `network`
recognition error, the session is listening while the connection state is
`error`, not `active`; continuing the run with a failed `startListening`
call leaves `isListening = false` with a non-zero `audioLevel`. -/
theorem listening_invariant_counterexample :
    Reachable errorTraceMid ∧
    errorTraceMid.isListening = true ∧
    errorTraceMid.connectionState ≠ .active ∧
    Reachable errorTraceEnd ∧
    errorTraceEnd.isListening = false ∧
    errorTraceEnd.audioLevel ≠ 0 := by
  have hmid : Reachable errorTraceMid :=
    Reachable.step (.errorEv "network")
      (Reachable.step (.tickEv true 64)
        (Reachable.step .startEv (Reachable.step .startOk Reachable.init)))
  have hlevel : errorTraceMid.audioLevel = 1 / 2 := by
    simp [errorTraceMid, onerror, updateAudioLevel, onstart, startListeningOk,
      initialVoiceState]
    norm_num [min_def]
  refine ⟨hmid, ?_, ?_, Reachable.step (.startFail "Failed to start listening") hmid, ?_, ?_⟩
  · simp [errorTraceMid, onerror, updateAudioLevel, onstart, startListeningOk, initialVoiceState]
  · simp [errorTraceMid, onerror, updateAudioLevel, onstart, startListeningOk, initialVoiceState]
  · simp [errorTraceEnd, startListeningFail]
  · simp [errorTraceEnd, startListeningFail, hlevel]

/-- C3 (amended): in every reachable session state, `isListening` is true
only while the connection state is not `idle`, and `audioLevel` equals `0`
whenever the connection state is `idle`. -/
theorem listening_audioLevel_invariant (s : VoiceState) (h : Reachable s) :
    (s.isListening = true → s.connectionState ≠ .idle) ∧
    (s.connectionState = .idle → s.audioLevel = 0) := by
  induction h with
  | init => simp [initialVoiceState]
  | step e hr ih =>
    cases e with
    | startOk => simp [applyEvent, startListeningOk]
    | startFail msg => simp [applyEvent, startListeningFail]
    | startEv => simp [applyEvent, onstart]
    | errorEv code =>
      simp only [applyEvent, onerror]
      split
      · simp
      · exact ih
    | endEv =>
      simp only [applyEvent, onend]
      split
      · exact ih
      · exact ih
    | stopEv => simp [applyEvent, stopListening]
    | tickEv p avg =>
      simp only [applyEvent, updateAudioLevel]
      split
      · exact ⟨ih.1, fun _ => rfl⟩
      · rename_i hcond
        push_neg at hcond
        constructor
        · simpa using ih.1
        · intro hidle
          exact absurd hidle (by simpa using ih.1 (by simpa using hcond.2))

/-- Witness for the amended C3 at the reachable state `stopListening`
applied to the initial state. -/
theorem listening_audioLevel_invariant_witness :
    ((stopListening initialVoiceState).isListening = true →
      (stopListening initialVoiceState).connectionState ≠ .idle) ∧
    ((stopListening initialVoiceState).connectionState = .idle →
      (stopListening initialVoiceState).audioLevel = 0) :=
  listening_audioLevel_invariant (stopListening initialVoiceState)
    (Reachable.step .stopEv Reachable.init)

/-! ## Claims about speech output -/

/-- C2 (counterexample): the claim that `stopSpeaking()` cancels the active
backend audio playback is false.  In the state produced by a successful
`speak` call the backend source is playing, and after `stopSpeaking` it is
still playing. -/
theorem stopSpeaking_counterexample :
    (speak .success ⟨false, false, false⟩).1.backendPlaying = true ∧
    (stopSpeaking (speak .success ⟨false, false, false⟩).1).backendPlaying = true ∧
    (stopSpeaking (speak .success ⟨false, false, false⟩).1).isSpeaking = false := by
  refine ⟨rfl, rfl, rfl⟩

/-- C2 (amended): for every session state, `stopSpeaking()` cancels the
local-synthesis queue and unconditionally sets `isSpeaking` to false, while
leaving any active backend audio playback untouched. -/
theorem stopSpeaking_spec (s : SpeakState) :
    (stopSpeaking s).isSpeaking = false ∧
    (stopSpeaking s).localQueueActive = false ∧
    (stopSpeaking s).backendPlaying = s.backendPlaying :=
  ⟨rfl, rfl, rfl⟩

/-- C4: whenever the backend synthesis path of `speak` fails for any reason
(network error, non-2xx response, decode failure), the local fallback is
invoked exactly once with rate `0.9` and pitch `1.0`; exactly one of the
backend path and the fallback path registers the terminal
`isSpeaking = false` callback; and once backend playback has started the
fallback is never entered. -/
theorem speak_fallback_policy (o : BackendOutcome) (s : SpeakState) :
    (o ≠ .success →
      (speak o s).2.fallbackInvocations = 1 ∧
      (speak o s).2.fallbackRate = 9 / 10 ∧
      (speak o s).2.fallbackPitch = 1) ∧
    (speak o s).2.backendTerminal = !(speak o s).2.fallbackTerminal ∧
    (o = .success →
      (speak o s).1.backendPlaying = true ∧ (speak o s).2.fallbackInvocations = 0) := by
  cases o <;> simp [speak]

/-- Witness for C4: the spec's scenario of a backend HTTP 500 response. -/
theorem speak_fallback_policy_witness :
    (speak (.httpFail 500) ⟨false, false, false⟩).2.fallbackInvocations = 1 ∧
    (speak (.httpFail 500) ⟨false, false, false⟩).2.fallbackRate = 9 / 10 ∧
    (speak (.httpFail 500) ⟨false, false, false⟩).2.fallbackPitch = 1 :=
  (speak_fallback_policy (.httpFail 500) ⟨false, false, false⟩).1 (by decide)

/-! ## Claims about the audio codec -/

/-- C6: resampling at equal rates is the identity; otherwise the output has
length `floor(input.length * rateOut / rateIn)` and each output sample is
the linear interpolation of the two surrounding input samples at source
position `i * rateIn / rateOut`, with the trailing out-of-range index
falling back to the last valid sample or `0`. -/
theorem resampleAudio_spec (input : List ℚ) (rIn rOut : ℚ)
    (_hIn : 0 < rIn) (_hOut : 0 < rOut) :
    resampleAudio input rIn rIn = input ∧
    (rIn ≠ rOut →
      (resampleAudio input rIn rOut).length = (⌊(input.length : ℚ) * rOut / rIn⌋).toNat ∧
      ∀ i, i < (resampleAudio input rIn rOut).length →
        (resampleAudio input rIn rOut).getD i 0 =
          if (⌊(i : ℚ) * rIn / rOut⌋).toNat + 1 < input.length then
            input.getD (⌊(i : ℚ) * rIn / rOut⌋).toNat 0 *
                (1 - ((i : ℚ) * rIn / rOut - ((⌊(i : ℚ) * rIn / rOut⌋).toNat : ℚ))) +
              input.getD ((⌊(i : ℚ) * rIn / rOut⌋).toNat + 1) 0 *
                ((i : ℚ) * rIn / rOut - ((⌊(i : ℚ) * rIn / rOut⌋).toNat : ℚ))
          else input.getD (⌊(i : ℚ) * rIn / rOut⌋).toNat 0) := by
  refine ⟨by simp [resampleAudio], fun hne => ⟨?_, ?_⟩⟩
  · simp only [resampleAudio, if_neg hne, List.length_map, List.length_range]
    rw [mul_div_assoc]
  · intro i hi
    simp only [resampleAudio, if_neg hne, List.length_map, List.length_range] at hi ⊢
    rw [List.getD_eq_getElem?_getD, List.getElem?_map, List.getElem?_range hi]
    simp only [Option.map_some', Option.getD_some, div_div_eq_mul_div]

/-- Witness for C6: upsampling three samples from rate 2 to rate 3. -/
theorem resampleAudio_spec_witness :
    (0 : ℚ) < 2 ∧ (0 : ℚ) < 3 ∧
    resampleAudio [1, 2, 3] 2 2 = [1, 2, 3] ∧
    (resampleAudio [1, 2, 3] 2 3).length = 4 ∧
    (resampleAudio [1, 2, 3] 2 3).getD 1 0 = 5 / 3 := by
  have h := resampleAudio_spec [1, 2, 3] 2 3 (by norm_num) (by norm_num)
  have hlen : (resampleAudio [1, 2, 3] 2 3).length = 4 := by
    rw [(h.2 (by norm_num)).1]
    norm_num
    rfl
  refine ⟨by norm_num, by norm_num, h.1, hlen, ?_⟩
  rw [(h.2 (by norm_num)).2 1 (by rw [hlen]; norm_num)]
  norm_num

/-- Clamping a value already inside the unit interval is the identity. -/
theorem clamp_eq_self {x : ℚ} (h1 : -1 ≤ x) (h2 : x ≤ 1) : max (-1) (min 1 x) = x := by
  rw [min_eq_right h2, max_eq_right h1]

/-- C7 (counterexample): the claimed reconstruction bound of one
quantization step `±1/32768` fails.  For the sample `2/65535 ∈ [-1, 1]` the
round trip through `float32ToInt16` and `int16ToFloat32` returns `0`, a
deviation of `2/65535 > 1/32768`. -/
theorem pcm_roundtrip_counterexample :
    (-1 : ℚ) ≤ 2 / 65535 ∧ (2 : ℚ) / 65535 ≤ 1 ∧
    int16ToFloat32Sample (float32ToInt16Sample (2 / 65535)) = 0 ∧
    |int16ToFloat32Sample (float32ToInt16Sample (2 / 65535)) - 2 / 65535| > 1 / 32768 := by
  refine ⟨by norm_num, by norm_num, ?_, ?_⟩
  · norm_num [float32ToInt16Sample, int16ToFloat32Sample, truncTowardZero]
  · norm_num [float32ToInt16Sample, int16ToFloat32Sample, truncTowardZero, abs]

/-- C7 (amended): for every sample `x ∈ [-1, 1]` the round trip
`int16ToFloat32 (float32ToInt16 x)` reconstructs `x` strictly within
`1/32767`, one quantization step of the non-negative side; `float32ToInt16`
clamps to `[-1, 1]` before scaling and scales asymmetrically (negative
values by 32768, non-negative by 32767), and `int16ToFloat32` divides by
the matching factors. -/
theorem pcm_roundtrip_spec (x : ℚ) (h1 : -1 ≤ x) (h2 : x ≤ 1) :
    |int16ToFloat32Sample (float32ToInt16Sample x) - x| < 1 / 32767 ∧
    (x < 0 → float32ToInt16Sample x = truncTowardZero (x * 32768)) ∧
    (0 ≤ x → float32ToInt16Sample x = truncTowardZero (x * 32767)) ∧
    (∀ y : ℚ, float32ToInt16Sample y = float32ToInt16Sample (max (-1) (min 1 y))) ∧
    (∀ i : ℤ, i < 0 → int16ToFloat32Sample i = (i : ℚ) / 32768) ∧
    (∀ i : ℤ, 0 ≤ i → int16ToFloat32Sample i = (i : ℚ) / 32767) := by
  have hc : max (-1) (min 1 x) = x := clamp_eq_self h1 h2
  refine ⟨?_, ?_, ?_, ?_, ?_, ?_⟩
  · by_cases hx : x < 0
    · have hq : x * 32768 < 0 := mul_neg_of_neg_of_pos hx (by norm_num)
      have hfi : float32ToInt16Sample x = ⌈x * 32768⌉ := by
        simp only [float32ToInt16Sample, hc, if_pos hx, truncTowardZero, if_pos hq]
        rw [Int.floor_neg, neg_neg]
      have hcle : ⌈x * 32768⌉ ≤ 0 := by
        rw [show (0 : ℤ) = ⌈(0 : ℚ)⌉ from by simp]
        exact Int.ceil_le_ceil hq.le
      have hge : x * 32768 ≤ (⌈x * 32768⌉ : ℚ) := Int.le_ceil _
      have hlt : (⌈x * 32768⌉ : ℚ) < x * 32768 + 1 := Int.ceil_lt_add_one _
      rcases lt_or_eq_of_le hcle with hneg | hzero
      · have hrecon : int16ToFloat32Sample (float32ToInt16Sample x) =
            (⌈x * 32768⌉ : ℚ) / 32768 := by
          rw [hfi, int16ToFloat32Sample, if_pos hneg]
        rw [hrecon, abs_lt]
        constructor <;> nlinarith [hge, hlt]
      · have hrecon : int16ToFloat32Sample (float32ToInt16Sample x) = 0 := by
          rw [hfi, hzero]
          norm_num [int16ToFloat32Sample]
        have hxlb : -1 < x * 32768 := by
          rw [hzero] at hlt
          push_cast at hlt
          linarith
        rw [hrecon, zero_sub, abs_neg, abs_of_neg hx]
        linarith
    · push_neg at hx
      have hq : 0 ≤ x * 32767 := by positivity
      have hfi : float32ToInt16Sample x = ⌊x * 32767⌋ := by
        simp only [float32ToInt16Sample, hc, if_neg (not_lt.mpr hx), truncTowardZero,
          if_neg (not_lt.mpr hq)]
      have hge : (0 : ℤ) ≤ ⌊x * 32767⌋ := Int.floor_nonneg.mpr hq
      have hrecon : int16ToFloat32Sample (float32ToInt16Sample x) =
          (⌊x * 32767⌋ : ℚ) / 32767 := by
        rw [hfi, int16ToFloat32Sample, if_neg (not_lt.mpr hge)]
      have hfl : (⌊x * 32767⌋ : ℚ) ≤ x * 32767 := Int.floor_le _
      have hflt : x * 32767 < (⌊x * 32767⌋ : ℚ) + 1 := Int.lt_floor_add_one _
      rw [hrecon, abs_lt]
      constructor <;> nlinarith [hfl, hflt]
  · intro hx
    simp only [float32ToInt16Sample, hc, if_pos hx]
  · intro hx
    simp only [float32ToInt16Sample, hc, if_neg (not_lt.mpr hx)]
  · intro y
    have hcc : max (-1) (min 1 (max (-1) (min 1 y))) = max (-1) (min 1 y) :=
      clamp_eq_self (le_max_left _ _) (max_le (by norm_num) (min_le_left _ _))
    simp only [float32ToInt16Sample, hcc]
  · intro i hi
    rw [int16ToFloat32Sample, if_pos hi]
  · intro i hi
    rw [int16ToFloat32Sample, if_neg (not_lt.mpr hi)]

/-- Witness for the amended C7 at the sample `1/2`. -/
theorem pcm_roundtrip_spec_witness :
    (-1 : ℚ) ≤ 1 / 2 ∧ (1 : ℚ) / 2 ≤ 1 ∧
    |int16ToFloat32Sample (float32ToInt16Sample (1 / 2)) - 1 / 2| < 1 / 32767 :=
  ⟨by norm_num, by norm_num,
    (pcm_roundtrip_spec (1 / 2) (by norm_num) (by norm_num)).1⟩

/-- Byte-level form of `createWavHeader`: the sequential writes of the
source produce this concatenation of chunks. -/
theorem createWavHeader_bytes (L R C b : ℕ) :
    createWavHeader L R C b = some
      ([82, 73, 70, 70] ++ uint32Bytes (36 + L) ++ [87, 65, 86, 69] ++
       [102, 109, 116, 32] ++ uint32Bytes 16 ++ uint16Bytes 1 ++ uint16Bytes C ++
       uint32Bytes R ++ uint32Bytes (R * C * b / 8) ++ uint16Bytes (C * b / 8) ++
       uint16Bytes b ++ [100, 97, 116, 97] ++ uint32Bytes L) := by
  simp [createWavHeader, writeString, writeBytes, setUint32, setUint16, uint32Bytes,
    uint16Bytes, List.replicate,
    show "RIFF".length = 4 from rfl, show "WAVE".length = 4 from rfl,
    show "fmt ".length = 4 from rfl, show "data".length = 4 from rfl]

/-- C8: for in-range field values, `createWavHeader` succeeds with exactly
44 bytes; the byteRate field decodes to `R * C * b / 8`, the blockAlign
field to `C * b / 8`, and decoding the canonical little-endian layout at
offsets 40, 24 and 22 yields back the data length, sample rate and channel
count exactly. -/
theorem createWavHeader_spec (L R C b : ℕ)
    (hL : 36 + L < 4294967296) (hR : R < 4294967296) (hC : C < 65536)
    (hbr : R * C * b / 8 < 4294967296) (hba : C * b / 8 < 65536) :
    (createWavHeader L R C b).isSome = true ∧
    ((createWavHeader L R C b).getD []).length = 44 ∧
    readUint32 ((createWavHeader L R C b).getD []) 28 = R * C * b / 8 ∧
    readUint16 ((createWavHeader L R C b).getD []) 32 = C * b / 8 ∧
    readUint32 ((createWavHeader L R C b).getD []) 40 = L ∧
    readUint32 ((createWavHeader L R C b).getD []) 24 = R ∧
    readUint16 ((createWavHeader L R C b).getD []) 22 = C := by
  rw [createWavHeader_bytes]
  refine ⟨rfl, ?_, ?_, ?_, ?_, ?_, ?_⟩
  · simp [uint32Bytes, uint16Bytes]
  · simp [readUint32, uint32Bytes, uint16Bytes]
    omega
  · simp [readUint16, uint32Bytes, uint16Bytes]
    omega
  · simp [readUint32, uint32Bytes, uint16Bytes]
    omega
  · simp [readUint32, uint32Bytes, uint16Bytes]
    omega
  · simp [readUint16, uint32Bytes, uint16Bytes]
    omega

/-- Witness for C8: a mono 16-bit header at 16 kHz with 1000 data bytes. -/
theorem createWavHeader_spec_witness :
    (createWavHeader 1000 16000 1 16).isSome = true ∧
    readUint32 ((createWavHeader 1000 16000 1 16).getD []) 40 = 1000 ∧
    readUint32 ((createWavHeader 1000 16000 1 16).getD []) 24 = 16000 ∧
    readUint16 ((createWavHeader 1000 16000 1 16).getD []) 22 = 1 ∧
    readUint32 ((createWavHeader 1000 16000 1 16).getD []) 28 = 32000 ∧
    readUint16 ((createWavHeader 1000 16000 1 16).getD []) 32 = 2 := by
  have h := createWavHeader_spec 1000 16000 1 16 (by norm_num) (by norm_num)
    (by norm_num) (by norm_num) (by norm_num)
  obtain ⟨a1, a2, a3, a4, a5, a6, a7⟩ := h
  exact ⟨a1, a5, a6, a7, by simpa using a3, by simpa using a4⟩


/-- C10 (counterexample): the claim that concatenation returns a buffer for
every non-empty list is false.  With a stereo first buffer and a mono
second buffer, the channel loop reaches channel index 1 of the mono buffer
and `getChannelData` throws `IndexSizeError` instead of returning a
buffer. -/
theorem concatenateAudioBuffers_counterexample :
    concatenateAudioBuffers
      [(⟨2, 2, 16000, [[1, 2], [3, 4]]⟩ : AudioBuffer), ⟨1, 2, 16000, [[5, 6]]⟩] =
      .error "IndexSizeError" := by
  rfl

/-- The per-channel fill succeeds when every buffer owns the channel. -/
theorem fillChannel_ok (channel : ℕ) :
    ∀ (bs : List AudioBuffer) (acc : List ℚ × ℕ),
      (∀ b ∈ bs, channel < b.numberOfChannels) →
      ∃ out, fillChannel channel bs acc = .ok out
  | [], acc, _ => ⟨acc, rfl⟩
  | b :: bs, acc, h => by
    have hb : channel < b.numberOfChannels := h b (List.mem_cons_self _ _)
    have hget : b.getChannelData channel = .ok (b.channelData.getD channel []) := by
      rw [AudioBuffer.getChannelData, if_pos hb]
    rw [fillChannel, hget]
    exact fillChannel_ok channel bs _ (fun b' hb' => h b' (List.mem_cons_of_mem _ hb'))

/-- The channel loop succeeds when every buffer owns every visited channel. -/
theorem fillChannels_ok (buffers : List AudioBuffer) (totalLength : ℕ) :
    ∀ (channels : List ℕ),
      (∀ c ∈ channels, ∀ b ∈ buffers, c < b.numberOfChannels) →
      ∃ out, fillChannels buffers totalLength channels = .ok out
  | [], _ => ⟨[], rfl⟩
  | channel :: channels, h => by
    obtain ⟨o1, ho1⟩ := fillChannel_ok channel buffers (List.replicate totalLength 0, 0)
      (h channel (List.mem_cons_self _ _))
    obtain ⟨o2, ho2⟩ := fillChannels_ok buffers totalLength channels
      (fun c hc => h c (List.mem_cons_of_mem _ hc))
    rw [fillChannels, ho1, ho2]
    exact ⟨o1.1 :: o2, rfl⟩

/-- C10 (amended): `concatenateAudioBuffers` returns `null` (no buffer) on
the empty list rather than an empty buffer or an error; on a one-element
list it returns the very same input buffer; and on every non-empty list in
which each buffer has at least as many channels as the first it returns a
buffer (a later buffer with fewer channels makes `getChannelData` throw
`IndexSizeError` instead). -/
theorem concatenateAudioBuffers_spec :
    concatenateAudioBuffers [] = .ok none ∧
    (∀ b : AudioBuffer, concatenateAudioBuffers [b] = .ok (some b)) ∧
    (∀ (b0 : AudioBuffer) (rest : List AudioBuffer),
      (∀ b ∈ b0 :: rest, b0.numberOfChannels ≤ b.numberOfChannels) →
      ∃ r, concatenateAudioBuffers (b0 :: rest) = .ok (some r)) := by
  refine ⟨rfl, fun b => rfl, fun b0 rest h => ?_⟩
  match rest with
  | [] => exact ⟨b0, rfl⟩
  | b1 :: rest =>
    obtain ⟨out, hout⟩ := fillChannels_ok (b0 :: b1 :: rest)
      ((b0 :: b1 :: rest).foldl (fun acc b => acc + b.length) 0)
      (List.range b0.numberOfChannels)
      (fun c hc b hb => lt_of_lt_of_le (List.mem_range.mp hc) (h b hb))
    rw [concatenateAudioBuffers, hout]
    exact ⟨_, rfl⟩

/-- Witness for the amended C10: two mono buffers concatenate into a
buffer. -/
theorem concatenateAudioBuffers_spec_witness :
    concatenateAudioBuffers [] = .ok none ∧
    concatenateAudioBuffers [(⟨1, 2, 16000, [[1, 2]]⟩ : AudioBuffer)] =
      .ok (some ⟨1, 2, 16000, [[1, 2]]⟩) ∧
    (concatenateAudioBuffers
      [(⟨1, 2, 16000, [[1, 2]]⟩ : AudioBuffer), ⟨1, 1, 16000, [[3]]⟩]).isOk = true := by
  refine ⟨concatenateAudioBuffers_spec.1, concatenateAudioBuffers_spec.2.1 _, ?_⟩
  obtain ⟨r, hr⟩ := concatenateAudioBuffers_spec.2.2 (⟨1, 2, 16000, [[1, 2]]⟩ : AudioBuffer)
    [⟨1, 1, 16000, [[3]]⟩] (by decide)
  rw [hr]
  rfl
